import Mathlib

/-!
# Verification of `update_xcode_project.py`

A shallow embedding of the script `src/update_xcode_project.py`.

The script holds a static insertion-ordered mapping `swift_files` from
relative Swift file paths to display names, probes each constructed
absolute path with `os.path.exists`, prints one status line per entry
(`✅ <path>` or `❌ <path> - NOT FOUND`), and then prints a fixed block of
instructions.

The embedding models the process output as the list of strings passed to
`print` (one list element per `print` call), and the filesystem as an
abstract map from absolute path strings to the kind of object found there.
-/

namespace UpdateXcodeProject

/-- The kind of filesystem object found at a path, after following
symlinks (i.e. the result of a successful `stat`): a regular file, a
directory, or some other object (socket, FIFO, device file, ...).
`none` in the map below means `stat` fails (no object, or a broken
symlink). -/
inductive FileKind where
  | file
  | dir
  | other
  deriving DecidableEq, Repr

/-- Abstract filesystem state: each absolute path maps to the kind of
object `stat` finds there, or `none` when nothing is there. -/
def FS : Type := String → Option FileKind

/-- Python's `os.path.exists`: true iff `stat` on the path succeeds,
i.e. iff any filesystem object (of any kind) is present at the path
after following symlinks. -/
def osPathExists (fs : FS) (p : String) : Bool :=
  (fs p).isSome

/-- The static mapping `swift_files` from `generate_file_references`
(source lines 13–41): relative path ↦ display name, in source
(insertion) order. -/
def swift_files : List (String × String) :=
  [ -- Models
    ("Models/Phase.swift", "Phase.swift"),
    ("Models/Schedule.swift", "Schedule.swift"),
    ("Models/SessionRecord.swift", "SessionRecord.swift"),
    ("Models/PendingTransition.swift", "PendingTransition.swift"),
    ("Models/DailyStats.swift", "DailyStats.swift"),
    -- Services
    ("Services/TimerEngine.swift", "TimerEngine.swift"),
    ("Services/SessionManager.swift", "SessionManager.swift"),
    ("Services/TransitionManager.swift", "TransitionManager.swift"),
    ("Services/NotificationService.swift", "NotificationService.swift"),
    -- ViewModels
    ("ViewModels/PhaseCoordinator.swift", "PhaseCoordinator.swift"),
    -- Views
    ("Views/MenuBarView.swift", "MenuBarView.swift"),
    ("Views/SettingsView.swift", "SettingsView.swift"),
    ("Views/Components/HeaderView.swift", "HeaderView.swift"),
    ("Views/Components/ActiveSessionView.swift", "ActiveSessionView.swift"),
    ("Views/Components/StatsView.swift", "StatsView.swift"),
    ("Views/Components/ControlsView.swift", "ControlsView.swift"),
    ("Views/Components/FooterView.swift", "FooterView.swift"),
    -- Utilities
    ("Utilities/TimeFormatter.swift", "TimeFormatter.swift") ]

/-- The fixed base directory hard-coded at source line 48. -/
def baseDir : String := "/Users/vladislav_k/Code/Personal/MoveIt"

/-- The fixed project subdirectory prefixed at source line 47. -/
def projectSubdir : String := "MoveIt"

/-- `full_path = f"MoveIt/{path}"` (source line 47). -/
def full_path (path : String) : String := "MoveIt/" ++ path

/-- The absolute path probed by `os.path.exists`
(`f"/Users/vladislav_k/Code/Personal/MoveIt/{full_path}"`, source
line 48). -/
def probedPath (path : String) : String :=
  "/Users/vladislav_k/Code/Personal/MoveIt/" ++ full_path path

/-- `"=" * 50` (source lines 44 and 53). -/
def sep50 : String := String.mk (List.replicate 50 '=')

/-- The status line printed for one `(path, name)` entry of the mapping
(source lines 46–51): a checkmark line when `os.path.exists` succeeds
on the constructed path, otherwise a cross-mark line with the
`" - NOT FOUND"` suffix. -/
def checkLine (fs : FS) (entry : String × String) : String :=
  if osPathExists fs (probedPath entry.1) then
    "✅ " ++ full_path entry.1
  else
    "❌ " ++ full_path entry.1 ++ " - NOT FOUND"

/-- The file-check phase: one line per entry of `swift_files`, in
mapping order (the `for path, name in swift_files.items()` loop). -/
def checkLines (fs : FS) : List String :=
  swift_files.map (checkLine fs)

/-- The two header lines printed before the loop (source lines 43–44). -/
def headerLines : List String :=
  ["New Swift files to add to Xcode project:", sep50]

/-- The fixed instruction block printed after the loop (source lines
53–61), one list element per `print` call. -/
def instructionLines : List String :=
  [ "\n" ++ sep50,
    "\nTo add these files to Xcode:",
    "1. Open MoveIt.xcodeproj in Xcode",
    "2. Right-click on the MoveIt folder in the project navigator",
    "3. Select 'Add Files to MoveIt...'",
    "4. Navigate to each folder (Models, Services, etc.) and add all .swift files",
    "5. Make sure 'Copy items if needed' is UNCHECKED",
    "6. Make sure 'Add to targets: MoveIt' is CHECKED",
    "\nAlternatively, drag and drop the folders into Xcode project navigator" ]

/-- `generate_file_references` (source lines 10–61): the full sequence
of strings passed to `print`, as a function of the filesystem state. -/
def generate_file_references (fs : FS) : List String :=
  headerLines ++ checkLines fs ++ instructionLines

/-- The `__main__` entry point (source lines 63–64): the script takes no
arguments, calls `generate_file_references`, and — containing no
`sys.exit` and raising no exception on normal completion — exits with
code 0.  Modelled as the pair (printed lines, exit code). -/
def mainRun (fs : FS) : List String × Nat :=
  (generate_file_references fs, 0)

/-- The checkmark line naming relative path `p`. -/
def succLine (p : String) : String := "✅ " ++ full_path p

/-- The cross-mark line naming relative path `p`. -/
def failLine (p : String) : String := "❌ " ++ full_path p ++ " - NOT FOUND"

/-- A filesystem with nothing present anywhere (in particular the base
directory itself does not exist). -/
def fsEmpty : FS := fun _ => none

/-- A filesystem whose only object is a non-regular, non-directory
object (e.g. a socket) sitting exactly at the first probed path. -/
def fsSocket : FS := fun p =>
  if p = probedPath "Models/Phase.swift" then some FileKind.other else none

/-- The marker line opening the instruction block. -/
def instrMarker : String := "\nTo add these files to Xcode:"

/-! ## Helper lemmas on strings -/

theorem data_append (s t : String) : (s ++ t).data = s.data ++ t.data := rfl

theorem string_eq_iff_data {s t : String} : s = t ↔ s.data = t.data := by
  constructor
  · intro h; rw [h]
  · intro h; cases s; cases t; exact congrArg String.mk h

theorem succLine_inj {a b : String} (h : succLine a = succLine b) : a = b := by
  have hd : ("✅ MoveIt/").data ++ a.data = ("✅ MoveIt/").data ++ b.data :=
    string_eq_iff_data.mp h
  exact string_eq_iff_data.mpr (List.append_cancel_left hd)

theorem failLine_inj {a b : String} (h : failLine a = failLine b) : a = b := by
  have hd : ("❌ MoveIt/").data ++ (a.data ++ (" - NOT FOUND").data)
      = ("❌ MoveIt/").data ++ (b.data ++ (" - NOT FOUND").data) :=
    string_eq_iff_data.mp h
  exact string_eq_iff_data.mpr (List.append_cancel_right (List.append_cancel_left hd))

theorem succLine_ne_failLine (a b : String) : succLine a ≠ failLine b := by
  intro h
  have hd : ('✅' : Char) :: (' ' :: (("MoveIt/").data ++ a.data))
      = ('❌' : Char) :: (' ' :: (("MoveIt/").data ++ b.data ++ (" - NOT FOUND").data)) :=
    string_eq_iff_data.mp h
  have : ('✅' : Char) = '❌' := by injection hd
  exact absurd this (by decide)

theorem succ_beq_succ (a b : String) : (succLine a == succLine b) = (a == b) := by
  by_cases h : a = b
  · subst h; simp
  · have h2 : succLine a ≠ succLine b := fun hh => h (succLine_inj hh)
    simp [h, h2]

theorem fail_beq_fail (a b : String) : (failLine a == failLine b) = (a == b) := by
  by_cases h : a = b
  · subst h; simp
  · have h2 : failLine a ≠ failLine b := fun hh => h (failLine_inj hh)
    simp [h, h2]

theorem succ_beq_fail (a b : String) : (succLine a == failLine b) = false := by
  simp [succLine_ne_failLine a b]

theorem fail_beq_succ (a b : String) : (failLine a == succLine b) = false := by
  have := succLine_ne_failLine b a
  simp [this.symm]

/-- `checkLine` produces either the success or the failure line for the
entry's relative path, according to the existence probe. -/
theorem checkLine_eq (fs : FS) (e : String × String) :
    checkLine fs e =
      if osPathExists fs (probedPath e.1) then succLine e.1 else failLine e.1 := by
  unfold checkLine succLine failLine
  split <;> rfl

/-- Per-key counting lemma: over any list of entries, the success and
failure lines for key `p` together occur as many times as `p` occurs
among the keys. -/
theorem count_succ_add_count_fail (fs : FS) (l : List (String × String)) (p : String) :
    (l.map (checkLine fs)).count (succLine p)
      + (l.map (checkLine fs)).count (failLine p)
      = (l.map Prod.fst).count p := by
  induction l with
  | nil => simp
  | cons e t ih =>
    simp only [List.map_cons, List.count_cons, checkLine_eq]
    by_cases hex : osPathExists fs (probedPath e.1) = true
    · simp only [hex, if_true]
      by_cases hp : p = e.1
      · subst hp
        simp [succ_beq_succ, fail_beq_succ, succ_beq_fail, fail_beq_fail]
        omega
      · simp [succ_beq_succ, fail_beq_succ, succ_beq_fail, fail_beq_fail, hp, Ne.symm hp]
        omega
    · simp only [Bool.not_eq_true] at hex
      simp only [hex, Bool.false_eq_true, if_false]
      by_cases hp : p = e.1
      · subst hp
        simp [succ_beq_succ, fail_beq_succ, succ_beq_fail, fail_beq_fail]
        omega
      · simp [succ_beq_succ, fail_beq_succ, succ_beq_fail, fail_beq_fail, hp, Ne.symm hp]
        omega

/-- The keys of the static mapping are pairwise distinct. -/
theorem swift_files_keys_nodup : (swift_files.map Prod.fst).Nodup := by decide

/-- The static mapping has 18 entries. -/
theorem swift_files_length : swift_files.length = 18 := rfl

theorem str_append_assoc (a b c : String) : a ++ b ++ c = a ++ (b ++ c) :=
  string_eq_iff_data.mpr (List.append_assoc a.data b.data c.data)

theorem checkLines_length (fs : FS) : (checkLines fs).length = 18 := by
  simp [checkLines, swift_files]

/-- No file-check line equals the instruction marker line (check lines
start with a checkmark or cross-mark, the marker starts with a newline). -/
theorem checkLine_ne_instrMarker (fs : FS) (e : String × String) :
    checkLine fs e ≠ instrMarker := by
  rw [checkLine_eq]
  split
  · intro h
    have hd : ('✅' : Char) :: (' ' :: (("MoveIt/").data ++ e.1.data))
        = ('\n' : Char) :: ("To add these files to Xcode:").data :=
      string_eq_iff_data.mp h
    have : ('✅' : Char) = '\n' := by injection hd
    exact absurd this (by decide)
  · intro h
    have hd : ('❌' : Char) :: (' ' :: (("MoveIt/").data ++ e.1.data ++ (" - NOT FOUND").data))
        = ('\n' : Char) :: ("To add these files to Xcode:").data :=
      string_eq_iff_data.mp h
    have : ('❌' : Char) = '\n' := by injection hd
    exact absurd this (by decide)

theorem count_instrMarker_checkLines (fs : FS) :
    (checkLines fs).count instrMarker = 0 := by
  rw [List.count_eq_zero]
  intro hmem
  obtain ⟨e, _, he⟩ := List.mem_map.mp hmem
  exact checkLine_ne_instrMarker fs e he

/-! ## Claims -/

/-- C1: for every entry (relative path, display name) of the static
mapping, exactly one status line for that entry appears in the
file-check output (the success-line count and failure-line count for its
path sum to 1); the success line appears when the constructed path
exists, the failure line (carrying ` - NOT FOUND`) when it does not. -/
theorem c1_one_line_per_entry (fs : FS) (e : String × String) (he : e ∈ swift_files) :
    ((checkLines fs).count (succLine e.1) + (checkLines fs).count (failLine e.1) = 1)
    ∧ (osPathExists fs (probedPath e.1) = true →
        succLine e.1 ∈ checkLines fs ∧ failLine e.1 ∉ checkLines fs)
    ∧ (osPathExists fs (probedPath e.1) = false →
        failLine e.1 ∈ checkLines fs ∧ succLine e.1 ∉ checkLines fs) := by
  have hkeymem : e.1 ∈ swift_files.map Prod.fst := List.mem_map_of_mem Prod.fst he
  have hkey : (swift_files.map Prod.fst).count e.1 = 1 :=
    List.count_eq_one_of_mem swift_files_keys_nodup hkeymem
  have hsum0 := count_succ_add_count_fail fs swift_files e.1
  rw [hkey] at hsum0
  have hsum : (checkLines fs).count (succLine e.1) + (checkLines fs).count (failLine e.1) = 1 :=
    hsum0
  refine ⟨hsum, ?_, ?_⟩
  · intro hex
    have hline : checkLine fs e = succLine e.1 := by rw [checkLine_eq, if_pos hex]
    have hmem : succLine e.1 ∈ checkLines fs := by
      have hm := List.mem_map_of_mem (checkLine fs) he
      rwa [hline] at hm
    refine ⟨hmem, ?_⟩
    have h1 : 0 < (checkLines fs).count (succLine e.1) := List.count_pos_iff.mpr hmem
    have h0 : (checkLines fs).count (failLine e.1) = 0 := by omega
    exact List.count_eq_zero.mp h0
  · intro hex
    have hline : checkLine fs e = failLine e.1 := by
      rw [checkLine_eq, if_neg]
      simp [hex]
    have hmem : failLine e.1 ∈ checkLines fs := by
      have hm := List.mem_map_of_mem (checkLine fs) he
      rwa [hline] at hm
    refine ⟨hmem, ?_⟩
    have h1 : 0 < (checkLines fs).count (failLine e.1) := List.count_pos_iff.mpr hmem
    have h0 : (checkLines fs).count (succLine e.1) = 0 := by omega
    exact List.count_eq_zero.mp h0

/-- Witness for C1 at the first entry and the empty filesystem. -/
theorem c1_one_line_per_entry_witness :
    (("Models/Phase.swift", "Phase.swift") ∈ swift_files)
    ∧ (((checkLines fsEmpty).count (succLine "Models/Phase.swift")
          + (checkLines fsEmpty).count (failLine "Models/Phase.swift") = 1)
       ∧ (osPathExists fsEmpty (probedPath "Models/Phase.swift") = true →
            succLine "Models/Phase.swift" ∈ checkLines fsEmpty
            ∧ failLine "Models/Phase.swift" ∉ checkLines fsEmpty)
       ∧ (osPathExists fsEmpty (probedPath "Models/Phase.swift") = false →
            failLine "Models/Phase.swift" ∈ checkLines fsEmpty
            ∧ succLine "Models/Phase.swift" ∉ checkLines fsEmpty)) :=
  ⟨by decide, c1_one_line_per_entry fsEmpty ("Models/Phase.swift", "Phase.swift") (by decide)⟩

/-- C2: the file-check phase produces exactly 18 report lines — one per
entry of the static mapping — whatever the existence results are. -/
theorem c2_line_count (fs : FS) :
    (checkLines fs).length = 18 ∧ (checkLines fs).length = swift_files.length :=
  ⟨checkLines_length fs, by simp [checkLines]⟩

/-- C3: the output is always header lines, then the file-check lines,
then the fixed instruction block; the instruction block is the constant
`instructionLines` (independent of the filesystem), it follows every
file-check line (it is exactly the lines from position 20 on), and its
marker line occurs exactly once in the whole output. -/
theorem c3_instructions_once_after_checks (fs : FS) :
    generate_file_references fs = headerLines ++ checkLines fs ++ instructionLines
    ∧ (generate_file_references fs).drop 20 = instructionLines
    ∧ (generate_file_references fs).count instrMarker = 1 := by
  refine ⟨rfl, ?_, ?_⟩
  · have hlen : (headerLines ++ checkLines fs).length = 20 := by
      simp [headerLines, checkLines_length fs]
    calc (generate_file_references fs).drop 20
        = ((headerLines ++ checkLines fs) ++ instructionLines).drop
            (headerLines ++ checkLines fs).length := by
          rw [hlen]; rw [generate_file_references, List.append_assoc]
      _ = instructionLines := List.drop_left _ _
  · rw [generate_file_references]
    rw [List.count_append, List.count_append]
    rw [count_instrMarker_checkLines fs]
    have h1 : headerLines.count instrMarker = 0 := by decide
    have h2 : instructionLines.count instrMarker = 1 := by decide
    rw [h1, h2]

/-- C4: the file-check lines appear in mapping order: for every index
`i`, the output line at position `2 + i` (after the two header lines) is
exactly the status line of the `i`-th entry of the static mapping, so
the line of an earlier entry always precedes the line of a later one. -/
theorem c4_order_preserved (fs : FS) (i : ℕ) (hi : i < swift_files.length) :
    (generate_file_references fs)[2 + i]? = some (checkLine fs (swift_files.get ⟨i, hi⟩)) := by
  rw [generate_file_references, List.append_assoc]
  rw [List.getElem?_append_right (by simp [headerLines] : headerLines.length ≤ 2 + i)]
  have h2 : 2 + i - headerLines.length = i := by simp [headerLines]
  rw [h2]
  rw [List.getElem?_append_left (by simpa [checkLines_length fs, swift_files_length] using hi)]
  rw [checkLines, List.getElem?_map]
  rw [List.getElem?_eq_getElem hi]
  rfl

/-- Witness for C4 at index 0 and the empty filesystem. -/
theorem c4_order_preserved_witness :
    (0 < swift_files.length)
    ∧ (generate_file_references fsEmpty)[2 + 0]?
        = some (checkLine fsEmpty (swift_files.get ⟨0, by decide⟩)) :=
  ⟨by decide, c4_order_preserved fsEmpty 0 (by decide)⟩

/-- C5: the probed location is exactly the fixed base directory, the
fixed project subdirectory and the entry's relative path joined with
`/` separators. -/
theorem c5_probed_path (path : String) :
    probedPath path = baseDir ++ "/" ++ projectSubdir ++ "/" ++ path := by
  rw [probedPath, full_path, ← str_append_assoc]
  rfl

/-- Counterexample to C6 as stated: a filesystem whose only object at
the first probed path is neither a regular file nor a directory (e.g. a
socket, `FileKind.other`) still gets the success marker line, because
`os.path.exists` succeeds on any `stat`-able object. -/
theorem c6_counterexample :
    fsSocket (probedPath "Models/Phase.swift") = some FileKind.other
    ∧ checkLine fsSocket ("Models/Phase.swift", "Phase.swift")
        = succLine "Models/Phase.swift" := by
  constructor
  · rw [fsSocket, if_pos rfl]
  · decide

/-- C6 (amended): the success marker is printed for an entry if and
only if `os.path.exists` succeeds on the constructed location, i.e. iff
any filesystem object — a regular file, a directory, or any other
`stat`-able object such as a socket or FIFO — is present there;
otherwise the failure line is printed. -/
theorem c6_exists_iff (fs : FS) (e : String × String) :
    (checkLine fs e = succLine e.1 ↔ osPathExists fs (probedPath e.1) = true)
    ∧ (checkLine fs e = failLine e.1 ↔ osPathExists fs (probedPath e.1) = false) := by
  rw [checkLine_eq]
  by_cases hex : osPathExists fs (probedPath e.1) = true
  · rw [if_pos hex]
    constructor
    · exact ⟨fun _ => hex, fun _ => rfl⟩
    · constructor
      · intro h; exact absurd h (succLine_ne_failLine e.1 e.1)
      · intro h; rw [hex] at h; cases h
  · have hex' : osPathExists fs (probedPath e.1) = false := by
      simpa using hex
    rw [if_neg hex]
    constructor
    · constructor
      · intro h; exact absurd h.symm (succLine_ne_failLine e.1 e.1)
      · intro h; rw [hex'] at h; cases h
    · exact ⟨fun _ => hex', fun _ => rfl⟩

/-- C7: on every run (i.e. for every filesystem state) the process exit
code is 0 — the script contains no `sys.exit` and varies nothing on
missing files. -/
theorem c7_exit_code_zero (fs : FS) : (mainRun fs).2 = 0 := rfl

/-- C8: when nothing exists on disk (in particular when the base
directory itself is missing), the run still completes: every entry is
reported with its failure (`NOT FOUND`) line, and the output still ends
with the instruction block. -/
theorem c8_base_dir_missing (fs : FS) (h : ∀ p, fs p = none) :
    checkLines fs = swift_files.map (fun e => failLine e.1)
    ∧ generate_file_references fs
        = headerLines ++ swift_files.map (fun e => failLine e.1) ++ instructionLines := by
  have hck : checkLines fs = swift_files.map (fun e => failLine e.1) := by
    rw [checkLines]
    apply List.map_congr_left
    intro e _
    rw [checkLine_eq, if_neg]
    simp [osPathExists, h]
  exact ⟨hck, by rw [generate_file_references, hck]⟩

/-- Witness for C8: the everywhere-empty filesystem. -/
theorem c8_base_dir_missing_witness :
    checkLines fsEmpty = swift_files.map (fun e => failLine e.1)
    ∧ generate_file_references fsEmpty
        = headerLines ++ swift_files.map (fun e => failLine e.1) ++ instructionLines :=
  c8_base_dir_missing fsEmpty (fun _ => rfl)

/-- C9: the static mapping is a fixed insertion-ordered table of 18
entries with pairwise-distinct relative-path keys; in this embedding it
is a top-level constant that `generate_file_references` only reads, so
it is identical before and after every step of execution. -/
theorem c9_mapping_static :
    swift_files.length = 18 ∧ (swift_files.map Prod.fst).Nodup :=
  ⟨rfl, swift_files_keys_nodup⟩

/-- C10 (implicit): every file-check line names the path as the project
subdirectory joined with the relative path (`MoveIt/<relative path>`),
never the bare relative path and never the absolute path: the line is
exactly `✅ MoveIt/<path>` or `❌ MoveIt/<path> - NOT FOUND`. -/
theorem c10_line_names_subdir_path (fs : FS) (e : String × String) :
    checkLine fs e = "✅ " ++ (projectSubdir ++ "/" ++ e.1)
    ∨ checkLine fs e = "❌ " ++ (projectSubdir ++ "/" ++ e.1) ++ " - NOT FOUND" := by
  rw [checkLine_eq]
  split
  · left; rfl
  · right; rfl

end UpdateXcodeProject
